import Mathlib

/-!
Shallow embedding of the schema-to-spreadsheet exporter:
`src/db_schema_to_excel.py` (SQL Server dialect, prefixed `mssql` below),
`src/oracle_schema_to_excel.py` (Oracle dialect, prefixed `oracle` below) and
`src/db_schema_utils.py` (shared styling helpers, prefixed `utils` below).

Catalog rows are modelled as structures whose fields carry the values the
queries deliver to Python (nullable database values become `Option`);
SQL expressions that the source embeds in its query text (the Oracle
`DATA_LENGTH` CASE expression) are translated as well, since they are part
of the repository's source.
-/

/-- Python truthiness of a nullable integer value (`if x:`):
`None` and `0` are falsy, every other integer is truthy. -/
def pyTruthyInt : Option Int → Bool
  | none => false
  | some n => n != 0

/-- Python truthiness of a nullable string value (`if s:`):
`None` and the empty string are falsy. -/
def pyTruthyStr : Option String → Bool
  | none => false
  | some s => s != ""

/-- One step of Python dict assignment `d[k] = v` on an insertion-ordered
association list: the first binding of `k` is updated in place, otherwise the
new binding is appended. -/
def dictInsert : List (String × String) → String → String → List (String × String)
  | [], k, v => [(k, v)]
  | p :: rest, k, v => if p.1 == k then (k, v) :: rest else p :: dictInsert rest k v

/-- Python `d.get(k)` on the association-list dict model. -/
def dictGet (d : List (String × String)) (k : String) : Option String :=
  (d.find? (fun p => p.1 == k)).map Prod.snd

/-- Python `k in d` on the association-list dict model. -/
def dictContains (d : List (String × String)) (k : String) : Bool :=
  d.any (fun p => p.1 == k)

/-- The dict comprehension `fk_dict` built from the foreign-key query rows
in both dialects' `get_column_info`: each row is the pair of parent column
name and referenced-target string; a later row with the same key overwrites
the earlier binding. -/
def buildFkDict (fk_results : List (String × String)) : List (String × String) :=
  fk_results.foldl (fun d r => dictInsert d r.1 r.2) []

/-- One row delivered by the SQL Server column query of
`db_schema_to_excel.get_column_info` (nullable columns become `Option`). -/
structure MssqlColumnRow where
  COLUMN_NAME : String
  DATA_TYPE : String
  IS_NULLABLE : String
  CHARACTER_MAXIMUM_LENGTH : Option Int
  NUMERIC_PRECISION : Option Int
  NUMERIC_SCALE : Option Int
  IS_PRIMARY_KEY : String
  COLUMN_DESCRIPTION : Option String
deriving DecidableEq, Repr

/-- The `column_info` dict appended per row by both dialects'
`get_column_info` (keys kept in source order: 테이블명, 컬럼명, 데이터 타입,
Nullable, PK, FK, FK 참조, 설명). -/
structure ColumnInfo where
  table_name : String
  column_name : String
  data_type : String
  nullable : String
  pk : String
  fk : String
  fk_ref : String
  description : String
deriving DecidableEq, Repr

/-- The type display string computed by the loop body of
`db_schema_to_excel.get_column_info`: append `(length)` when
`CHARACTER_MAXIMUM_LENGTH` is truthy, else `(precision,scale)` when both
`NUMERIC_PRECISION` and `NUMERIC_SCALE` are not `None`. -/
def mssqlDataTypeString (row : MssqlColumnRow) : String :=
  if pyTruthyInt row.CHARACTER_MAXIMUM_LENGTH then
    row.DATA_TYPE ++ "(" ++ toString (row.CHARACTER_MAXIMUM_LENGTH.getD 0) ++ ")"
  else if row.NUMERIC_PRECISION.isSome && row.NUMERIC_SCALE.isSome then
    row.DATA_TYPE ++ "(" ++ toString (row.NUMERIC_PRECISION.getD 0) ++ ","
      ++ toString (row.NUMERIC_SCALE.getD 0) ++ ")"
  else
    row.DATA_TYPE

/-- The `column_info` dict built for one row by
`db_schema_to_excel.get_column_info`. -/
def mssqlColumnInfo (table_name : String) (fk_dict : List (String × String))
    (row : MssqlColumnRow) : ColumnInfo :=
  { table_name := table_name
    column_name := row.COLUMN_NAME
    data_type := mssqlDataTypeString row
    nullable := if row.IS_NULLABLE == "YES" then "Y" else "N"
    pk := row.IS_PRIMARY_KEY
    fk := if dictContains fk_dict row.COLUMN_NAME then "Y" else "N"
    fk_ref := (dictGet fk_dict row.COLUMN_NAME).getD ""
    description := if pyTruthyStr row.COLUMN_DESCRIPTION then
        row.COLUMN_DESCRIPTION.getD "" else "" }

/-- `db_schema_to_excel.get_column_info`: build `fk_dict` from the FK rows,
then emit one `column_info` per column-query row, in order. -/
def mssql_get_column_info (table_name : String) (results : List MssqlColumnRow)
    (fk_results : List (String × String)) : List ColumnInfo :=
  let fk_dict := buildFkDict fk_results
  results.map (mssqlColumnInfo table_name fk_dict)

/-- A value computed inside the Oracle SQL query text: NULL, a number, or a
string (the `DATA_LENGTH` CASE expression yields all three shapes). -/
inductive SqlVal where
  | vnull
  | vint (n : Int)
  | vstr (s : String)
deriving DecidableEq, Repr

/-- Python truthiness of a delivered SQL value. -/
def sqlValTruthy : SqlVal → Bool
  | .vnull => false
  | .vint n => n != 0
  | .vstr s => s != ""

/-- How Python's f-string renders a delivered SQL value. -/
def sqlValFormat : SqlVal → String
  | .vnull => "None"
  | .vint n => toString n
  | .vstr s => s

/-- Oracle string concatenation of a nullable numeric operand: NULL renders
as the empty string under `||`. -/
def oraNullableToString : Option Int → String
  | none => ""
  | some n => toString n

/-- Whether the first character list occurs at the start of the second. -/
def charsStartWith : List Char → List Char → Bool
  | [], _ => true
  | _ :: _, [] => false
  | a :: as, b :: bs => a == b && charsStartWith as bs

/-- Whether the first character list occurs somewhere inside the second. -/
def charsContain (pat : List Char) : List Char → Bool
  | [] => charsStartWith pat []
  | c :: rest => charsStartWith pat (c :: rest) || charsContain pat rest

/-- SQL `LIKE` containment test for a plain percent-delimited pattern:
true when the pattern occurs somewhere in `s`. -/
def sqlLikeContains (pat s : String) : Bool := charsContain pat.data s.data

/-- The character-family test of the Oracle column query:
`c.DATA_TYPE LIKE ` percent-CHAR-percent ` OR c.DATA_TYPE = 'NVARCHAR2'`. -/
def oracleCharFamily (t : String) : Bool := sqlLikeContains "CHAR" t || t == "NVARCHAR2"

/-- One row delivered by the Oracle column query of
`oracle_schema_to_excel.get_column_info`, with the raw dictionary fields the
CASE expression reads (`DATA_PRECISION`, `DATA_SCALE`, `CHAR_LENGTH`). -/
structure OracleColumnRow where
  COLUMN_NAME : String
  DATA_TYPE : String
  DATA_PRECISION : Option Int
  DATA_SCALE : Option Int
  CHAR_LENGTH : Option Int
  NULLABLE : String
  IS_PRIMARY_KEY : String
  COMMENTS : Option String
deriving DecidableEq, Repr

/-- The `DATA_LENGTH` CASE expression embedded in the Oracle column query:
for `NUMBER` with a precision it concatenates precision, a comma and the
(possibly NULL, hence empty) scale; for character-family types it yields
`CHAR_LENGTH`; otherwise NULL. -/
def oracleDataLength (row : OracleColumnRow) : SqlVal :=
  if row.DATA_TYPE == "NUMBER" && row.DATA_PRECISION.isSome then
    .vstr (oraNullableToString row.DATA_PRECISION ++ "," ++ oraNullableToString row.DATA_SCALE)
  else if oracleCharFamily row.DATA_TYPE then
    match row.CHAR_LENGTH with
    | none => .vnull
    | some n => .vint n
  else
    .vnull

/-- The type display string computed by the loop body of
`oracle_schema_to_excel.get_column_info`: append `(DATA_LENGTH)` when that
delivered value is truthy. -/
def oracleDataTypeString (row : OracleColumnRow) : String :=
  if sqlValTruthy (oracleDataLength row) then
    row.DATA_TYPE ++ "(" ++ sqlValFormat (oracleDataLength row) ++ ")"
  else
    row.DATA_TYPE

/-- The `column_info` dict built for one row by
`oracle_schema_to_excel.get_column_info`. -/
def oracleColumnInfo (table_name : String) (fk_dict : List (String × String))
    (row : OracleColumnRow) : ColumnInfo :=
  { table_name := table_name
    column_name := row.COLUMN_NAME
    data_type := oracleDataTypeString row
    nullable := if row.NULLABLE == "Y" then "Y" else "N"
    pk := row.IS_PRIMARY_KEY
    fk := if dictContains fk_dict row.COLUMN_NAME then "Y" else "N"
    fk_ref := (dictGet fk_dict row.COLUMN_NAME).getD ""
    description := if pyTruthyStr row.COMMENTS then row.COMMENTS.getD "" else "" }

/-- `oracle_schema_to_excel.get_column_info`: build `fk_dict` from the FK
rows, then emit one `column_info` per column-query row, in order. -/
def oracle_get_column_info (table_name : String) (results : List OracleColumnRow)
    (fk_results : List (String × String)) : List ColumnInfo :=
  let fk_dict := buildFkDict fk_results
  results.map (oracleColumnInfo table_name fk_dict)

/-- Modelled from the spec's type-formatting rule (section 4.2 and the claim):
if a character length is present append `(length)`, else if both numeric
precision and scale are present append `(precision,scale)`, else append
nothing. Declared only to compare the code's behaviour against the rule as
the spec states it. -/
def specFormatType (base : String) (length precision scale : Option Int) : String :=
  match length with
  | some n => base ++ "(" ++ toString n ++ ")"
  | none =>
    match precision, scale with
    | some p, some s => base ++ "(" ++ toString p ++ "," ++ toString s ++ ")"
    | _, _ => base

/-- A block of cells placed on a table sheet: the pandas `startrow` argument
(zero-based; the header lands on this row) and the number of data rows. -/
structure BlockPlacement where
  startRow : Nat
  dataRows : Nat
deriving DecidableEq, Repr

/-- The column block of a table sheet: both dialects' `create_table_specification`
call `columns_df.to_excel(writer, sheet_name=table_name, index=False, startrow=2)`. -/
def columnBlock (ncols : Nat) : BlockPlacement := { startRow := 2, dataRows := ncols }

/-- The blocks both dialects' `create_table_specification` place on a table
sheet: the column block at startrow 2, and — only when `indexes_df` is not
empty — the index block at `startrow = len(columns_df) + 5`. -/
def tableSheetBlocks (ncols nidx : Nat) : List BlockPlacement :=
  [columnBlock ncols] ++
    (if nidx = 0 then [] else [{ startRow := ncols + 5, dataRows := nidx }])

/-- Rows striped by `db_schema_utils.apply_sheet_style`: data values are
written at one-based sheet rows `startrow+2 .. startrow+1+nrows`, and a row is
filled exactly when `r_idx % 2 == 0` — absolute row parity. -/
def utilsStripedRows (startrow nrows : Nat) : List Nat :=
  ((List.range nrows).map (fun i => startrow + 2 + i)).filter (fun r => r % 2 == 0)

/-- Rows striped by the `apply_sheet_style` local to `db_schema_to_excel`:
`for row_idx in range(startrow+2, startrow+len(df)+2, 2)` — every other data
row counted from the block's first data row. -/
def mssqlStripedRows (startrow nrows : Nat) : List Nat :=
  ((List.range nrows).filter (fun i => i % 2 == 0)).map (fun i => startrow + 2 + i)

/-- The `max_length` scan shared by both stylers: the longest stringified cell
value seen in a worksheet column (cells modelled by their rendered strings). -/
def colMaxLen (cells : List String) : Nat :=
  cells.foldl (fun m s => if s.length > m then s.length else m) 0

/-- Column display width assigned by `db_schema_to_excel.apply_sheet_style`:
`adjusted_width = min(max_length + 2, 50)`. -/
def mssqlColWidth (cells : List String) : Nat := min (colMaxLen cells + 2) 50

/-- Column display width assigned by `db_schema_utils.apply_sheet_style`:
`adjusted_width = (max_length + 2)` — no cap. -/
def utilsColWidth (cells : List String) : Nat := colMaxLen cells + 2

/-- Row-height assignments of `db_schema_to_excel.apply_sheet_style`: header
row `startrow+1` gets 25, data rows `range(startrow+2, startrow+len(df)+2)`
get 20. -/
def mssqlRowHeights (startrow nrows : Nat) : List (Nat × Nat) :=
  [(startrow + 1, 25)] ++ (List.range nrows).map (fun i => (startrow + 2 + i, 20))

/-- Row-height assignments of `db_schema_utils.apply_sheet_style`: header row
`startrow+1` gets 25, rows `range(startrow+2, max_row+1)` get 20. -/
def utilsRowHeights (startrow maxRow : Nat) : List (Nat × Nat) :=
  [(startrow + 1, 25)] ++
    (List.range (maxRow + 1 - (startrow + 2))).map (fun i => (startrow + 2 + i, 20))

/-- The navigation-relevant facts of one produced workbook: the sheet names
created, the `A1` back-link hyperlink set on some sheets, and the hyperlink
fragment attached to each entity's contents-row cell. -/
structure Workbook where
  sheetNames : List String
  backLinks : List (String × String)
  tocLinks : List (String × String)
deriving DecidableEq, Repr

/-- Navigation effects of `db_schema_to_excel.create_table_specification`
for given table and view name lists: the 목차 sheet, one sheet per table
(named verbatim) whose `A1` links to `#목차!A1`, one shared `Views` sheet when
any view exists, and a contents-row hyperlink `#name!A1` for every listed
name — tables and views alike. -/
def buildWorkbookMssql (tables views : List String) : Workbook :=
  { sheetNames := ["목차"] ++ tables ++ (if views.isEmpty then [] else ["Views"])
    backLinks := tables.map (fun t => (t, "#목차!A1"))
    tocLinks := (tables ++ views).map (fun n => (n, "#" ++ n ++ "!A1")) }

/-- Navigation effects of `oracle_schema_to_excel.create_table_specification`:
same sheets and per-table `A1` back links, but the function ends after the
Views sheet — no hyperlinks are ever attached to the contents rows. -/
def buildWorkbookOracle (tables views : List String) : Workbook :=
  { sheetNames := ["목차"] ++ tables ++ (if views.isEmpty then [] else ["Views"])
    backLinks := tables.map (fun t => (t, "#목차!A1"))
    tocLinks := [] }

/-- The exceptions reaching the top-level handlers of the two scripts'
`__main__` blocks. -/
inductive PyError where
  | permissionError (msg : String)
  | otherError (msg : String)
deriving DecidableEq, Repr

/-- What the top-level handler reports: `lockedAdvice` is the branch printing
the cannot-access message plus the advice to close the already-open file;
`generic` is the plain `Error:` print. -/
inductive ErrorReport where
  | lockedAdvice (msg : String)
  | generic (msg : String)
deriving DecidableEq, Repr

/-- The `__main__` handler of `db_schema_to_excel.py`:
`except PermissionError` prints the access failure and the close-the-file
advice; `except Exception` prints the generic message. -/
def mssqlMainHandler : PyError → ErrorReport
  | .permissionError m => .lockedAdvice m
  | .otherError m => .generic m

/-- The `__main__` handler of `oracle_schema_to_excel.py`: a single
`except Exception` clause — every failure, a `PermissionError` included,
takes the generic path. -/
def oracleMainHandler : PyError → ErrorReport
  | .permissionError m => .generic m
  | .otherError m => .generic m

/-- A concrete SQL Server column row used by witnesses: an integer column
with no description. -/
def wRowA : MssqlColumnRow :=
  { COLUMN_NAME := "A", DATA_TYPE := "int", IS_NULLABLE := "NO"
    CHARACTER_MAXIMUM_LENGTH := none, NUMERIC_PRECISION := some 10
    NUMERIC_SCALE := some 0, IS_PRIMARY_KEY := "N", COLUMN_DESCRIPTION := none }

/-- A concrete Oracle column row used by witnesses: a date column with no
comment. -/
def wRowB : OracleColumnRow :=
  { COLUMN_NAME := "A", DATA_TYPE := "DATE", DATA_PRECISION := none
    DATA_SCALE := none, CHAR_LENGTH := none, NULLABLE := "N"
    IS_PRIMARY_KEY := "N", COMMENTS := none }

/-- SQL Server row for the spec's `VARCHAR(50)` example. -/
def mssqlVarcharRow : MssqlColumnRow :=
  { COLUMN_NAME := "C1", DATA_TYPE := "VARCHAR", IS_NULLABLE := "YES"
    CHARACTER_MAXIMUM_LENGTH := some 50, NUMERIC_PRECISION := none
    NUMERIC_SCALE := none, IS_PRIMARY_KEY := "N", COLUMN_DESCRIPTION := none }

/-- SQL Server row for the spec's `NUMBER(10,2)` example. -/
def mssqlNumberRow : MssqlColumnRow :=
  { COLUMN_NAME := "C2", DATA_TYPE := "NUMBER", IS_NULLABLE := "YES"
    CHARACTER_MAXIMUM_LENGTH := none, NUMERIC_PRECISION := some 10
    NUMERIC_SCALE := some 2, IS_PRIMARY_KEY := "N", COLUMN_DESCRIPTION := none }

/-- SQL Server row for the spec's bare `DATE` example. -/
def mssqlDateRow : MssqlColumnRow :=
  { COLUMN_NAME := "C3", DATA_TYPE := "DATE", IS_NULLABLE := "YES"
    CHARACTER_MAXIMUM_LENGTH := none, NUMERIC_PRECISION := none
    NUMERIC_SCALE := none, IS_PRIMARY_KEY := "N", COLUMN_DESCRIPTION := none }

/-- Oracle row for the spec's `VARCHAR(50)` example. -/
def oracleVarcharRow : OracleColumnRow :=
  { COLUMN_NAME := "C1", DATA_TYPE := "VARCHAR", DATA_PRECISION := none
    DATA_SCALE := none, CHAR_LENGTH := some 50, NULLABLE := "Y"
    IS_PRIMARY_KEY := "N", COMMENTS := none }

/-- Oracle row for the spec's `NUMBER(10,2)` example. -/
def oracleNumberRow : OracleColumnRow :=
  { COLUMN_NAME := "C2", DATA_TYPE := "NUMBER", DATA_PRECISION := some 10
    DATA_SCALE := some 2, CHAR_LENGTH := none, NULLABLE := "Y"
    IS_PRIMARY_KEY := "N", COMMENTS := none }

/-- Oracle row for the spec's bare `DATE` example. -/
def oracleDateRow : OracleColumnRow :=
  { COLUMN_NAME := "C3", DATA_TYPE := "DATE", DATA_PRECISION := none
    DATA_SCALE := none, CHAR_LENGTH := none, NULLABLE := "Y"
    IS_PRIMARY_KEY := "N", COMMENTS := none }

/-- Oracle row with a precision but no scale: `NUMBER(10)`-free-form catalog
data that exercises the NULL-scale branch of the `DATA_LENGTH` CASE. -/
def oracleNumPrecOnlyRow : OracleColumnRow :=
  { COLUMN_NAME := "X", DATA_TYPE := "NUMBER", DATA_PRECISION := some 10
    DATA_SCALE := none, CHAR_LENGTH := none, NULLABLE := "Y"
    IS_PRIMARY_KEY := "N", COMMENTS := none }

/-! ### Association-list dict lemmas -/

theorem dictGet_cons (p : String × String) (rest : List (String × String)) (k : String) :
    dictGet (p :: rest) k = if (p.1 == k) = true then some p.2 else dictGet rest k := by
  simp only [dictGet, List.find?_cons]
  cases h : p.1 == k <;> simp [h]

theorem dictGet_insert (d : List (String × String)) (k v k' : String) :
    dictGet (dictInsert d k v) k' = if k' = k then some v else dictGet d k' := by
  induction d with
  | nil =>
    rw [show dictInsert [] k v = [(k, v)] from rfl, dictGet_cons]
    by_cases h : k' = k
    · subst h; simp
    · have hb : (k == k') = false := beq_eq_false_iff_ne.mpr (Ne.symm h)
      simp [hb, h, dictGet]
  | cons p rest ih =>
    by_cases hp : p.1 = k
    · have hpb : (p.1 == k) = true := beq_iff_eq.mpr hp
      rw [show dictInsert (p :: rest) k v = (k, v) :: rest from by
            simp [dictInsert, hpb]]
      rw [dictGet_cons, dictGet_cons]
      by_cases h : k' = k
      · simp [h]
      · have hb : (k == k') = false := beq_eq_false_iff_ne.mpr (Ne.symm h)
        have hpb2 : (p.1 == k') = false := beq_eq_false_iff_ne.mpr (fun hc => h (hc ▸ hp))
        simp [hb, hpb2, h]
    · have hpb : (p.1 == k) = false := beq_eq_false_iff_ne.mpr hp
      rw [show dictInsert (p :: rest) k v = p :: dictInsert rest k v from by
            simp [dictInsert, hpb]]
      rw [dictGet_cons, dictGet_cons, ih]
      by_cases hp2 : p.1 = k'
      · have h : ¬k' = k := fun hc => hp (hp2.trans hc)
        have hp2b : (p.1 == k') = true := beq_iff_eq.mpr hp2
        simp [hp2b, h]
      · have hp2b : (p.1 == k') = false := beq_eq_false_iff_ne.mpr hp2
        simp [hp2b]

theorem buildFkDict_foldl_get (fk : List (String × String)) (d : List (String × String))
    (k : String) :
    dictGet (fk.foldl (fun acc r => dictInsert acc r.1 r.2) d) k =
      match fk.reverse.find? (fun p => p.1 == k) with
      | some p => some p.2
      | none => dictGet d k := by
  induction fk generalizing d with
  | nil => simp
  | cons r rest ih =>
    simp only [List.foldl_cons, List.reverse_cons]
    rw [ih, List.find?_append]
    cases hfind : rest.reverse.find? (fun p => p.1 == k) with
    | some p => simp [Option.or]
    | none =>
      simp only [Option.or, List.find?_cons, List.find?_nil]
      rw [dictGet_insert]
      by_cases h : r.1 = k
      · have hb : (r.1 == k) = true := beq_iff_eq.mpr h
        simp [hb, h.symm]
      · have hb : (r.1 == k) = false := beq_eq_false_iff_ne.mpr h
        have h2 : ¬k = r.1 := fun hc => h hc.symm
        simp [hb, h2]

/-- The dict built by the comprehension returns the value of the last row
carrying the key. -/
theorem buildFkDict_get (fk : List (String × String)) (k : String) :
    dictGet (buildFkDict fk) k =
      (fk.reverse.find? (fun p => p.1 == k)).map Prod.snd := by
  rw [buildFkDict, buildFkDict_foldl_get]
  cases h : fk.reverse.find? (fun p => p.1 == k) <;> simp [dictGet]

theorem dictContains_iff_isSome (d : List (String × String)) (k : String) :
    dictContains d k = true ↔ (dictGet d k).isSome = true := by
  rw [dictContains, dictGet, Option.isSome_map', List.find?_isSome, List.any_eq_true]

/-- Membership among the dict keys coincides with membership among the
foreign-key rows' parent-column names. -/
theorem buildFkDict_mem_name (fk : List (String × String)) (n : String) :
    dictContains (buildFkDict fk) n = true ↔ n ∈ fk.map Prod.fst := by
  rw [dictContains_iff_isSome, buildFkDict_get, Option.isSome_map', List.find?_isSome]
  constructor
  · rintro ⟨p, hp, hb⟩
    exact List.mem_map.mpr ⟨p, List.mem_reverse.mp hp, beq_iff_eq.mp hb⟩
  · intro h
    obtain ⟨p, hp, hpn⟩ := List.mem_map.mp h
    exact ⟨p, List.mem_reverse.mpr hp, beq_iff_eq.mpr hpn⟩

/-- When every foreign-key row carries a non-empty target, the stored
reference string is non-empty exactly when the dict carries the key. -/
theorem buildFkDict_ref_ne (fk : List (String × String)) (n : String)
    (h : ∀ p ∈ fk, p.2 ≠ "") :
    ((dictGet (buildFkDict fk) n).getD "" ≠ "") ↔
      dictContains (buildFkDict fk) n = true := by
  rw [dictContains_iff_isSome, buildFkDict_get, Option.isSome_map']
  cases hf : fk.reverse.find? (fun p => p.1 == n) with
  | some p =>
    have hmem : p ∈ fk := List.mem_reverse.mp (List.mem_of_find?_eq_some hf)
    simp [h p hmem]
  | none => simp

/-! ### Claims about the normalizer (C4, C5, C9, C10) -/

/-- Claim C4: for every table and every list of rows returned by the column
query, the normalizer produces exactly one column descriptor per returned row,
and the i-th descriptor's column name equals the i-th row's column name —
catalog ordinal order preserved end to end, in both dialects. -/
theorem column_rows_preserved (tn : String) (rowsA : List MssqlColumnRow)
    (rowsB : List OracleColumnRow) (fk : List (String × String)) :
    (mssql_get_column_info tn rowsA fk).length = rowsA.length ∧
    (∀ i : Nat, ((mssql_get_column_info tn rowsA fk)[i]?).map ColumnInfo.column_name
      = (rowsA[i]?).map MssqlColumnRow.COLUMN_NAME) ∧
    (oracle_get_column_info tn rowsB fk).length = rowsB.length ∧
    (∀ i : Nat, ((oracle_get_column_info tn rowsB fk)[i]?).map ColumnInfo.column_name
      = (rowsB[i]?).map OracleColumnRow.COLUMN_NAME) := by
  refine ⟨by simp [mssql_get_column_info], ?_, by simp [oracle_get_column_info], ?_⟩
  · intro i
    simp only [mssql_get_column_info, List.getElem?_map]
    cases rowsA[i]? <;> simp [mssqlColumnInfo]
  · intro i
    simp only [oracle_get_column_info, List.getElem?_map]
    cases rowsB[i]? <;> simp [oracleColumnInfo]

theorem fk_fields_core (fk : List (String × String)) (n : String)
    (hne : ∀ p ∈ fk, p.2 ≠ "") :
    ((if dictContains (buildFkDict fk) n then "Y" else "N") = "Y" ↔
      ((dictGet (buildFkDict fk) n).getD "" ≠ "")) ∧
    ((if dictContains (buildFkDict fk) n then "Y" else "N") = "Y" ↔
      n ∈ fk.map Prod.fst) := by
  have h1 := buildFkDict_ref_ne fk n hne
  have h2 := buildFkDict_mem_name fk n
  by_cases hc : dictContains (buildFkDict fk) n = true
  · rw [if_pos hc]
    exact ⟨iff_of_true rfl (h1.mpr hc), iff_of_true rfl (h2.mp hc)⟩
  · rw [if_neg hc]
    exact ⟨iff_of_false (by decide) (fun hr => hc (h1.mp hr)),
           iff_of_false (by decide) (fun hm => hc (h2.mpr hm))⟩

/-- Claim C5: for every column descriptor, the FK flag is `Y` iff the stored
FK target is non-empty, and the flag is `Y` exactly when the column's name
appears as a parent column among the FK query's rows — in both dialects.
The hypothesis that every FK row carries a non-empty target reflects the
queries, which build the target by concatenating owner, table and column
with `.` separators. -/
theorem fk_flag_target_consistent (tn : String) (fk_results : List (String × String))
    (rowA : MssqlColumnRow) (rowB : OracleColumnRow)
    (hne : ∀ p ∈ fk_results, p.2 ≠ "") :
    ((mssqlColumnInfo tn (buildFkDict fk_results) rowA).fk = "Y" ↔
      (mssqlColumnInfo tn (buildFkDict fk_results) rowA).fk_ref ≠ "") ∧
    ((mssqlColumnInfo tn (buildFkDict fk_results) rowA).fk = "Y" ↔
      rowA.COLUMN_NAME ∈ fk_results.map Prod.fst) ∧
    ((oracleColumnInfo tn (buildFkDict fk_results) rowB).fk = "Y" ↔
      (oracleColumnInfo tn (buildFkDict fk_results) rowB).fk_ref ≠ "") ∧
    ((oracleColumnInfo tn (buildFkDict fk_results) rowB).fk = "Y" ↔
      rowB.COLUMN_NAME ∈ fk_results.map Prod.fst) := by
  have hA := fk_fields_core fk_results rowA.COLUMN_NAME hne
  have hB := fk_fields_core fk_results rowB.COLUMN_NAME hne
  exact ⟨hA.1, hA.2, hB.1, hB.2⟩

/-- Claim C5 witness: the consistency instantiated at a one-row FK set and
the concrete column rows. -/
theorem fk_flag_target_consistent_witness :
    (∀ p ∈ ([("A", "dbo.P.ID")] : List (String × String)), p.2 ≠ "") ∧
    ((mssqlColumnInfo "T" (buildFkDict [("A", "dbo.P.ID")]) wRowA).fk = "Y" ↔
      (mssqlColumnInfo "T" (buildFkDict [("A", "dbo.P.ID")]) wRowA).fk_ref ≠ "") ∧
    ((mssqlColumnInfo "T" (buildFkDict [("A", "dbo.P.ID")]) wRowA).fk = "Y" ↔
      wRowA.COLUMN_NAME ∈ ([("A", "dbo.P.ID")] : List (String × String)).map Prod.fst) ∧
    ((oracleColumnInfo "T" (buildFkDict [("A", "dbo.P.ID")]) wRowB).fk = "Y" ↔
      (oracleColumnInfo "T" (buildFkDict [("A", "dbo.P.ID")]) wRowB).fk_ref ≠ "") ∧
    ((oracleColumnInfo "T" (buildFkDict [("A", "dbo.P.ID")]) wRowB).fk = "Y" ↔
      wRowB.COLUMN_NAME ∈ ([("A", "dbo.P.ID")] : List (String × String)).map Prod.fst) :=
  ⟨by decide, fk_flag_target_consistent "T" [("A", "dbo.P.ID")] wRowA wRowB (by decide)⟩

/-- Claim C9: a column row whose comment is missing (null or empty) yields the
empty string in the output model's description field, never a null value, in
both dialects. -/
theorem missing_comment_empty (tn : String) (d : List (String × String))
    (rowA : MssqlColumnRow) (rowB : OracleColumnRow)
    (hA : rowA.COLUMN_DESCRIPTION = none ∨ rowA.COLUMN_DESCRIPTION = some "")
    (hB : rowB.COMMENTS = none ∨ rowB.COMMENTS = some "") :
    (mssqlColumnInfo tn d rowA).description = "" ∧
    (oracleColumnInfo tn d rowB).description = "" := by
  constructor
  · rcases hA with h | h <;> simp [mssqlColumnInfo, pyTruthyStr, h]
  · rcases hB with h | h <;> simp [oracleColumnInfo, pyTruthyStr, h]

/-- Claim C9 witness: instantiated at rows carrying a null comment. -/
theorem missing_comment_empty_witness :
    (mssqlColumnInfo "T" [] wRowA).description = "" ∧
    (oracleColumnInfo "T" [] wRowB).description = "" :=
  missing_comment_empty "T" [] wRowA wRowB (Or.inl rfl) (Or.inl rfl)

/-- Claim C10: when the foreign-key query returns several rows with the same
parent column name, the dict lookup keeps only the last such row's target
(later rows overwrite earlier ones), and a column row bearing that name is
still emitted exactly once, flagged `Y` with that last target. -/
theorem fk_last_row_wins (tn n : String) (fk : List (String × String))
    (row : MssqlColumnRow) (hn : row.COLUMN_NAME = n) (hmem : n ∈ fk.map Prod.fst) :
    dictGet (buildFkDict fk) n = (fk.reverse.find? (fun p => p.1 == n)).map Prod.snd ∧
    (mssql_get_column_info tn [row] fk).length = 1 ∧
    (mssqlColumnInfo tn (buildFkDict fk) row).fk = "Y" ∧
    (mssqlColumnInfo tn (buildFkDict fk) row).fk_ref =
      ((fk.reverse.find? (fun p => p.1 == n)).map Prod.snd).getD "" := by
  have hc : dictContains (buildFkDict fk) n = true := (buildFkDict_mem_name fk n).mpr hmem
  refine ⟨buildFkDict_get fk n, by simp [mssql_get_column_info], ?_, ?_⟩
  · show (if dictContains (buildFkDict fk) row.COLUMN_NAME then "Y" else "N") = "Y"
    rw [hn, if_pos hc]
  · show (dictGet (buildFkDict fk) row.COLUMN_NAME).getD "" = _
    rw [hn, buildFkDict_get]

/-- Claim C10 witness: two FK rows for column `A`; the kept target is the
second row's. -/
theorem fk_last_row_wins_witness :
    dictGet (buildFkDict [("A", "X.T1.C1"), ("A", "X.T2.C2")]) "A" =
      (([("A", "X.T1.C1"), ("A", "X.T2.C2")] : List (String × String)).reverse.find?
        (fun p => p.1 == "A")).map Prod.snd ∧
    (mssql_get_column_info "T" [wRowA] [("A", "X.T1.C1"), ("A", "X.T2.C2")]).length = 1 ∧
    (mssqlColumnInfo "T" (buildFkDict [("A", "X.T1.C1"), ("A", "X.T2.C2")]) wRowA).fk = "Y" ∧
    (mssqlColumnInfo "T" (buildFkDict [("A", "X.T1.C1"), ("A", "X.T2.C2")]) wRowA).fk_ref =
      ((([("A", "X.T1.C1"), ("A", "X.T2.C2")] : List (String × String)).reverse.find?
        (fun p => p.1 == "A")).map Prod.snd).getD "" :=
  fk_last_row_wins "T" "A" [("A", "X.T1.C1"), ("A", "X.T2.C2")] wRowA rfl (by decide)

/-! ### Claims about layout, styling, navigation and error reporting -/

/-- Claim C3: with the column block (header plus N data rows) placed at
startrow 2, the index block — written only when the table has at least one
index — starts exactly at `2 + (N + 1) + 2`: the gap is the fixed constant 2,
independent of the table; with zero indexes no index block is emitted. The
placement is a pure function of the column count. -/
theorem index_block_placement (ncols nidx : Nat) :
    (nidx ≠ 0 → tableSheetBlocks ncols nidx =
      [columnBlock ncols,
       { startRow := (columnBlock ncols).startRow + (ncols + 1) + 2, dataRows := nidx }]) ∧
    (nidx = 0 → tableSheetBlocks ncols nidx = [columnBlock ncols]) := by
  constructor
  · intro h
    have hrow : (columnBlock ncols).startRow + (ncols + 1) + 2 = ncols + 5 := by
      simp only [columnBlock]
      omega
    rw [hrow]
    simp [tableSheetBlocks, if_neg h]
  · intro h
    simp [tableSheetBlocks, h]

/-- Claim C3 witness: a table with three columns and two indexes places the
index block at row 8; with no indexes only the column block is placed. -/
theorem index_block_placement_witness :
    tableSheetBlocks 3 2 =
      [columnBlock 3,
       { startRow := (columnBlock 3).startRow + (3 + 1) + 2, dataRows := 2 }] ∧
    tableSheetBlocks 3 0 = [columnBlock 3] :=
  ⟨(index_block_placement 3 2).1 (by decide), (index_block_placement 3 0).2 rfl⟩

/-- Claim C6 counterexample: on one SQL Server-dialect table sheet with two
columns, the column block (startrow 2) stripes absolute row 4 — even — while
the index block (startrow 2+5 = 7) stripes absolute row 9 — odd: striping
follows each block's start row, not absolute row parity, so two blocks on the
same sheet stripe different parities. The shared utility styler at the same
placement stripes row 10. -/
theorem stripe_parity_counterexample :
    mssqlStripedRows 2 2 = [4] ∧ 4 % 2 = 0 ∧
    mssqlStripedRows 7 2 = [9] ∧ 9 % 2 = 1 ∧
    utilsStripedRows 7 2 = [10] := by decide

/-- Claim C6 (amended): the shared styler of db_schema_utils stripes exactly
the data rows of even absolute row index, while the styler local to
db_schema_to_excel stripes every other data row counted from the block's
first data row, so its striped absolute parity depends on the block's
start row. -/
theorem stripe_rows_characterized (startrow nrows r : Nat) :
    (r ∈ utilsStripedRows startrow nrows ↔
      (startrow + 2 ≤ r ∧ r < startrow + 2 + nrows ∧ r % 2 = 0)) ∧
    (r ∈ mssqlStripedRows startrow nrows ↔
      (startrow + 2 ≤ r ∧ r < startrow + 2 + nrows ∧ (r - (startrow + 2)) % 2 = 0)) := by
  constructor
  · simp only [utilsStripedRows, List.mem_filter, List.mem_map, List.mem_range]
    constructor
    · rintro ⟨⟨i, hi, rfl⟩, hpar⟩
      exact ⟨by omega, by omega, by simpa using hpar⟩
    · rintro ⟨h1, h2, h3⟩
      exact ⟨⟨r - (startrow + 2), by omega, by omega⟩, by simpa using h3⟩
  · simp only [mssqlStripedRows, List.mem_map, List.mem_filter, List.mem_range]
    constructor
    · rintro ⟨i, ⟨hi, hpar⟩, rfl⟩
      refine ⟨by omega, by omega, ?_⟩
      have hsub : startrow + 2 + i - (startrow + 2) = i := by omega
      rw [hsub]
      simpa using hpar
    · rintro ⟨h1, h2, h3⟩
      exact ⟨r - (startrow + 2), ⟨by omega, by simpa using h3⟩, by omega⟩

/-- Claim C7 counterexample: no fixed cap and padding make the shared utility
styler's width equal `min(max observed length, cap) + padding` — its width
`max_length + 2` is uncapped, growing past any candidate cap. -/
theorem column_width_counterexample :
    ¬∃ cap padding : Nat, ∀ cells : List String,
      utilsColWidth cells = min (colMaxLen cells) cap + padding := by
  rintro ⟨cap, padding, h⟩
  have h0 := h []
  have h1 := h [String.mk (List.replicate (cap + 1) 'a')]
  have hl : (String.mk (List.replicate (cap + 1) 'a')).length = cap + 1 := by
    simp [String.length]
  simp only [utilsColWidth, colMaxLen, List.foldl_nil, List.foldl_cons, hl] at h0 h1
  rw [if_pos (by omega)] at h1
  omega

/-- Claim C7 (amended): the SQL Server-dialect styler's width does equal
`min(max observed length, cap) + padding` with cap 48 and padding 2 — the
source's `min(max_length + 2, 50)` — while the shared utility styler applies
padding 2 and no cap at all. Header rows get the fixed height 25 and all
other assigned rows the fixed height 20 in both stylers. -/
theorem column_width_row_height (cells : List String) (startrow nrows maxRow r h : Nat) :
    mssqlColWidth cells = min (colMaxLen cells) 48 + 2 ∧
    utilsColWidth cells = colMaxLen cells + 2 ∧
    (startrow + 1, 25) ∈ mssqlRowHeights startrow nrows ∧
    ((r, h) ∈ mssqlRowHeights startrow nrows → h = 25 ∨ h = 20) ∧
    (startrow + 1, 25) ∈ utilsRowHeights startrow maxRow ∧
    ((r, h) ∈ utilsRowHeights startrow maxRow → h = 25 ∨ h = 20) := by
  refine ⟨by simp only [mssqlColWidth]; omega, rfl, by simp [mssqlRowHeights], ?_,
    by simp [utilsRowHeights], ?_⟩
  · intro hmem
    simp only [mssqlRowHeights, List.mem_append, List.mem_singleton, List.mem_map,
      List.mem_range, Prod.mk.injEq] at hmem
    rcases hmem with ⟨_, h25⟩ | ⟨i, _, _, h20⟩
    · exact Or.inl h25
    · exact Or.inr h20.symm
  · intro hmem
    simp only [utilsRowHeights, List.mem_append, List.mem_singleton, List.mem_map,
      List.mem_range, Prod.mk.injEq] at hmem
    rcases hmem with ⟨_, h25⟩ | ⟨i, _, _, h20⟩
    · exact Or.inl h25
    · exact Or.inr h20.symm

/-- Claim C7 witness: the amended width formula and a header-height instance
at concrete inputs. -/
theorem column_width_row_height_witness :
    mssqlColWidth ["abc"] = min (colMaxLen ["abc"]) 48 + 2 ∧ (25 = 25 ∨ 25 = 20) :=
  ⟨(column_width_row_height ["abc"] 2 3 6 3 25).1,
   (column_width_row_height ["abc"] 2 3 6 3 25).2.2.2.1 (by decide)⟩

/-- Claim C8 counterexample: the Oracle dialect routes a PermissionError —
the locked output file — through the same generic report as any other error,
unlike the SQL Server dialect. -/
theorem locked_file_report_counterexample :
    oracleMainHandler (PyError.permissionError "locked") = ErrorReport.generic "locked" ∧
    oracleMainHandler (PyError.otherError "boom") = ErrorReport.generic "boom" ∧
    mssqlMainHandler (PyError.permissionError "locked") ≠
      ErrorReport.generic "locked" := by decide

/-- Claim C8 (amended): only the SQL Server dialect reports the locked output
file as a distinct, user-actionable condition (the close-the-file advice);
the Oracle dialect reports every failure, PermissionError included, through
its single generic handler. -/
theorem locked_file_report (m m2 : String) (e : PyError) :
    mssqlMainHandler (PyError.permissionError m) = ErrorReport.lockedAdvice m ∧
    mssqlMainHandler (PyError.otherError m2) = ErrorReport.generic m2 ∧
    ∃ s : String, oracleMainHandler e = ErrorReport.generic s := by
  refine ⟨rfl, rfl, ?_⟩
  cases e with
  | permissionError m3 => exact ⟨m3, rfl⟩
  | otherError m3 => exact ⟨m3, rfl⟩

/-- Claim C1 counterexample: with no tables and the single view `V_ORDERS`,
the SQL Server dialect attaches a contents-row hyperlink targeting a sheet
named `V_ORDERS`, but no such sheet exists — views share the one `Views`
sheet — and no sheet carries a back link; the Oracle dialect attaches no
contents-row hyperlink at all even for a listed table. -/
theorem nav_round_trip_counterexample :
    (buildWorkbookMssql [] ["V_ORDERS"]).tocLinks = [("V_ORDERS", "#V_ORDERS!A1")] ∧
    "V_ORDERS" ∉ (buildWorkbookMssql [] ["V_ORDERS"]).sheetNames ∧
    (buildWorkbookMssql [] ["V_ORDERS"]).backLinks = [] ∧
    (buildWorkbookOracle ["T1"] []).tocLinks = [] := by decide

/-- Claim C1 (amended): in the SQL Server dialect the navigation round trip
holds for every table — the contents-row hyperlink targets the sheet named
verbatim after the table (no truncation occurs in the code), that sheet
exists, and its A1 links back to the contents sheet. View rows link to
per-view sheets that are never created, and the Oracle dialect attaches no
contents-row hyperlinks, while its table sheets still carry the back link. -/
theorem nav_round_trip (tables views : List String) (t : String) (ht : t ∈ tables) :
    (t, "#" ++ t ++ "!A1") ∈ (buildWorkbookMssql tables views).tocLinks ∧
    t ∈ (buildWorkbookMssql tables views).sheetNames ∧
    (t, "#목차!A1") ∈ (buildWorkbookMssql tables views).backLinks ∧
    (buildWorkbookOracle tables views).tocLinks = [] ∧
    (t, "#목차!A1") ∈ (buildWorkbookOracle tables views).backLinks := by
  refine ⟨?_, ?_, ?_, rfl, ?_⟩
  · exact List.mem_map_of_mem _ (List.mem_append_left views ht)
  · exact List.mem_append_left _ (List.mem_append_right _ ht)
  · exact List.mem_map_of_mem _ ht
  · exact List.mem_map_of_mem _ ht

/-- Claim C1 witness: the round trip instantiated at a workbook with the one
table `ORDERS` and no views. -/
theorem nav_round_trip_witness :
    ("ORDERS", "#" ++ "ORDERS" ++ "!A1") ∈ (buildWorkbookMssql ["ORDERS"] []).tocLinks ∧
    "ORDERS" ∈ (buildWorkbookMssql ["ORDERS"] []).sheetNames ∧
    ("ORDERS", "#목차!A1") ∈ (buildWorkbookMssql ["ORDERS"] []).backLinks ∧
    (buildWorkbookOracle ["ORDERS"] []).tocLinks = [] ∧
    ("ORDERS", "#목차!A1") ∈ (buildWorkbookOracle ["ORDERS"] []).backLinks :=
  nav_round_trip ["ORDERS"] [] "ORDERS" (by decide)

/-! ### Claim C2: type-string formatting -/

theorem str_append_comma_ne (a b : String) : (a ++ "," ++ b) ≠ "" := by
  intro h
  have h2 : (a ++ "," ++ b).length = 0 := by rw [h]; rfl
  rw [String.length_append, String.length_append] at h2
  have h3 : (",").length = 1 := rfl
  omega

/-- Claim C2 counterexample: an Oracle `NUMBER` column with precision 10 and
a NULL scale formats as `NUMBER(10,)` — the NULL scale concatenates to the
empty string inside the query's CASE expression — while the spec's rule
(`(precision,scale)` appended only when both are present, else nothing)
yields plain `NUMBER`. -/
theorem type_format_counterexample :
    oracleDataTypeString oracleNumPrecOnlyRow = "NUMBER(10,)" ∧
    specFormatType "NUMBER" none (some 10) none = "NUMBER" ∧
    ("NUMBER(10,)" : String) ≠ "NUMBER" := by decide

/-- Claim C2 (amended): the display type follows the spec's rule with
presence read as Python truthiness in the SQL Server dialect (a character
length counts only when non-null and non-zero) and with the Oracle dialect's
pre-extraction: a length counts only for character-family types, and
precision/scale only for type `NUMBER`, where a present precision with a
NULL scale renders the scale as empty (`NUMBER(10,)`). Under these
catalog-shaped hypotheses the code agrees with the spec rule, and the three
named examples hold in both dialects. -/
theorem type_format_amended (rowA : MssqlColumnRow) (rowB : OracleColumnRow)
    (hA : rowA.CHARACTER_MAXIMUM_LENGTH ≠ some 0)
    (hB1 : rowB.DATA_PRECISION.isSome = true → rowB.DATA_TYPE = "NUMBER")
    (hB2 : rowB.DATA_TYPE = "NUMBER" → rowB.DATA_PRECISION.isSome = true →
      rowB.DATA_SCALE.isSome = true)
    (hB3 : oracleCharFamily rowB.DATA_TYPE = true → rowB.CHAR_LENGTH ≠ some 0) :
    mssqlDataTypeString rowA =
      specFormatType rowA.DATA_TYPE rowA.CHARACTER_MAXIMUM_LENGTH
        rowA.NUMERIC_PRECISION rowA.NUMERIC_SCALE ∧
    oracleDataTypeString rowB =
      specFormatType rowB.DATA_TYPE
        (if oracleCharFamily rowB.DATA_TYPE then rowB.CHAR_LENGTH else none)
        rowB.DATA_PRECISION rowB.DATA_SCALE ∧
    mssqlDataTypeString mssqlVarcharRow = "VARCHAR(50)" ∧
    mssqlDataTypeString mssqlNumberRow = "NUMBER(10,2)" ∧
    mssqlDataTypeString mssqlDateRow = "DATE" ∧
    oracleDataTypeString oracleVarcharRow = "VARCHAR(50)" ∧
    oracleDataTypeString oracleNumberRow = "NUMBER(10,2)" ∧
    oracleDataTypeString oracleDateRow = "DATE" := by
  refine ⟨?_, ?_, by decide, by decide, by decide, by decide, by decide, by decide⟩
  · cases hL : rowA.CHARACTER_MAXIMUM_LENGTH with
    | some n =>
      have hn : n ≠ 0 := fun hz => hA (by rw [hL, hz])
      simp [mssqlDataTypeString, specFormatType, hL, pyTruthyInt, hn]
    | none =>
      cases hP : rowA.NUMERIC_PRECISION with
      | some p =>
        cases hS : rowA.NUMERIC_SCALE with
        | some s => simp [mssqlDataTypeString, specFormatType, hL, hP, hS, pyTruthyInt]
        | none => simp [mssqlDataTypeString, specFormatType, hL, hP, hS, pyTruthyInt]
      | none =>
        cases hS : rowA.NUMERIC_SCALE with
        | some s => simp [mssqlDataTypeString, specFormatType, hL, hP, hS, pyTruthyInt]
        | none => simp [mssqlDataTypeString, specFormatType, hL, hP, hS, pyTruthyInt]
  · by_cases hnum : rowB.DATA_TYPE = "NUMBER" ∧ rowB.DATA_PRECISION.isSome = true
    · obtain ⟨htype, hprec⟩ := hnum
      obtain ⟨p, hp⟩ := Option.isSome_iff_exists.mp hprec
      have hscale := hB2 htype hprec
      obtain ⟨s, hs⟩ := Option.isSome_iff_exists.mp hscale
      have hcf : oracleCharFamily rowB.DATA_TYPE = false := by rw [htype]; decide
      have hcf2 : oracleCharFamily "NUMBER" = false := by decide
      have hne : toString p ++ ("," ++ toString s) ≠ "" := by
        rw [← String.append_assoc]
        exact str_append_comma_ne (toString p) (toString s)
      simp [oracleDataTypeString, oracleDataLength, htype, hp, hs, hcf, hcf2, sqlValTruthy,
        sqlValFormat, oraNullableToString, specFormatType, hne, String.append_assoc]
    · have hprec : rowB.DATA_PRECISION = none := by
        cases hpc : rowB.DATA_PRECISION with
        | none => rfl
        | some p => exact absurd ⟨hB1 (by rw [hpc]; rfl), by rw [hpc]; rfl⟩ hnum
      have hcond : (rowB.DATA_TYPE == "NUMBER" && rowB.DATA_PRECISION.isSome) = false := by
        rw [hprec]
        simp
      by_cases hcf : oracleCharFamily rowB.DATA_TYPE = true
      · cases hCL : rowB.CHAR_LENGTH with
        | none =>
          simp [oracleDataTypeString, oracleDataLength, hcond, hcf, hCL, sqlValTruthy,
            specFormatType, hprec]
        | some n =>
          have hn : n ≠ 0 := fun hz => (hB3 hcf) (by rw [hCL, hz])
          simp [oracleDataTypeString, oracleDataLength, hcond, hcf, hCL, sqlValTruthy,
            sqlValFormat, specFormatType, hprec, hn]
      · have hcf2 : oracleCharFamily rowB.DATA_TYPE = false := by
          revert hcf
          cases oracleCharFamily rowB.DATA_TYPE <;> simp
        simp [oracleDataTypeString, oracleDataLength, hcond, hcf2, sqlValTruthy,
          specFormatType, hprec]

/-- Claim C2 witness: the amended agreement applied at the concrete
`VARCHAR(50)` SQL Server row and the concrete `NUMBER(10,2)` Oracle row. -/
theorem type_format_amended_witness :
    mssqlDataTypeString mssqlVarcharRow =
      specFormatType mssqlVarcharRow.DATA_TYPE mssqlVarcharRow.CHARACTER_MAXIMUM_LENGTH
        mssqlVarcharRow.NUMERIC_PRECISION mssqlVarcharRow.NUMERIC_SCALE ∧
    oracleDataTypeString oracleNumberRow =
      specFormatType oracleNumberRow.DATA_TYPE
        (if oracleCharFamily oracleNumberRow.DATA_TYPE then oracleNumberRow.CHAR_LENGTH
          else none)
        oracleNumberRow.DATA_PRECISION oracleNumberRow.DATA_SCALE :=
  ⟨(type_format_amended mssqlVarcharRow oracleNumberRow (by decide) (by decide) (by decide)
      (by decide)).1,
   (type_format_amended mssqlVarcharRow oracleNumberRow (by decide) (by decide) (by decide)
      (by decide)).2.1⟩
